import Mathlib

set_option linter.unnecessarySeqFocus false

deriving instance DecidableEq for Except

/-!
Verification of the Voyis distributed-imaging message codec, transport
wrapper and persistence gateway (namespace `dis`, files
`common/src/serialization.cpp`, `common/src/ipc_manager.cpp`,
`apps/data_logger/data_logger.hpp`, `feature_extractor.cpp`).

Byte strings are `List Nat` (each element a byte value), machine integers
are `Nat` with explicit `% 2^32` / `% 2^64` where C++ truncates, C++
`float` fields travel as their 32-bit patterns (serialization is a raw
`memcpy`, so a field round-trips exactly as its bit pattern), and C++
exceptions become `Except String`.
-/

namespace dis

/-- `0xDEADBEEF`, the wire magic constant from `message_types.hpp`. -/
def MESSAGE_MAGIC : Nat := 0xDEADBEEF

/-- Little-endian bytes of a 32-bit value, as `memcpy` of a `uint32_t`
lays them out on the reference (little-endian) platform.  Truncates the
argument to 32 bits, like the C++ `static_cast<uint32_t>`. -/
def u32LE (n : Nat) : List Nat :=
  [n % 256, n / 256 % 256, n / 65536 % 256, n / 16777216 % 256]

/-- Little-endian bytes of a 64-bit value (`uint64_t` via `memcpy`). -/
def u64LE (n : Nat) : List Nat :=
  u32LE (n % 4294967296) ++ u32LE (n / 4294967296)

/-- Read a little-endian unsigned value back from bytes (the `memcpy`
into a `uintN_t` that the deserializers perform). -/
def fromLE (l : List Nat) : Nat :=
  l.foldr (fun b acc => b % 256 + 256 * acc) 0

/-- The byte slice `[off, off+n)` of a buffer. -/
def readBytes (d : List Nat) (off n : Nat) : List Nat :=
  (d.drop off).take n

/-- `ImageData` from `message_types.hpp`: filename bytes, `uint32_t`
width/height/channels, `uint64_t` timestamp, raw payload bytes. -/
structure ImageData where
  filename : List Nat
  width : Nat
  height : Nat
  channels : Nat
  timestamp : Nat
  data : List Nat
deriving DecidableEq

/-- `Keypoint` from `message_types.hpp`: five `float` fields and two
`int32_t` fields, each carried as its 32-bit pattern. -/
structure Keypoint where
  x : Nat
  y : Nat
  size : Nat
  angle : Nat
  response : Nat
  octave : Nat
  class_id : Nat
deriving DecidableEq

/-- `ImageWithFeatures` from `message_types.hpp`; each descriptor float
is carried as its 32-bit pattern. -/
structure ImageWithFeatures where
  image : ImageData
  keypoints : List Keypoint
  descriptors : List Nat
deriving DecidableEq

/-- The 64-byte `MessageHeader` as it is `memcpy`d to the wire:
`magic(4) | kind(4) | payload_size(8) | timestamp(8) | width(4) |
height(4) | channels(4) | filename_length(4) | reserved(24)`. -/
def headerLE (magic kind payload_size timestamp width height channels filename_length : Nat) : List Nat :=
  u32LE magic ++ u32LE kind ++ u64LE payload_size ++ u64LE timestamp ++
  u32LE width ++ u32LE height ++ u32LE channels ++ u32LE filename_length ++
  List.replicate 24 0

/-- The 28 wire bytes of one `Keypoint` (`memcpy` of the packed struct). -/
def keypointLE (k : Keypoint) : List Nat :=
  u32LE k.x ++ u32LE k.y ++ u32LE k.size ++ u32LE k.angle ++
  u32LE k.response ++ u32LE k.octave ++ u32LE k.class_id

/-- `Serializer::serialize(const ImageData&)`: header, then filename
bytes, then payload bytes.  `filename_length` is the `uint32_t` cast of
the filename size and `payload_size` is that cast plus the data size. -/
def serialize_image (img : ImageData) : List Nat :=
  headerLE MESSAGE_MAGIC 1
    (img.filename.length % 4294967296 + img.data.length)
    img.timestamp img.width img.height img.channels img.filename.length ++
  img.filename ++ img.data

/-- `Serializer::serialize(const ImageWithFeatures&)`: header, filename,
payload, keypoint count (`uint32_t`), keypoint structs, descriptor count
(`uint32_t`), descriptor floats. -/
def serialize_image_with_features (x : ImageWithFeatures) : List Nat :=
  headerLE MESSAGE_MAGIC 2
    (x.image.filename.length + x.image.data.length +
      4 + 28 * x.keypoints.length + 4 + 4 * x.descriptors.length)
    x.image.timestamp x.image.width x.image.height x.image.channels
    x.image.filename.length ++
  x.image.filename ++ x.image.data ++
  u32LE x.keypoints.length ++ (x.keypoints.flatMap keypointLE) ++
  u32LE x.descriptors.length ++ (x.descriptors.flatMap u32LE)

/-- Rebuild one `Keypoint` from its 28 wire bytes. -/
def parseKeypoint (b : List Nat) : Keypoint :=
  { x := fromLE (b.take 4)
    y := fromLE ((b.drop 4).take 4)
    size := fromLE ((b.drop 8).take 4)
    angle := fromLE ((b.drop 12).take 4)
    response := fromLE ((b.drop 16).take 4)
    octave := fromLE ((b.drop 20).take 4)
    class_id := fromLE ((b.drop 24).take 4) }

/-- `read_vector_from_buffer<Keypoint>`: the block of `n` keypoints that
`memcpy` recovers from a byte block. -/
def parseKeypoints : Nat → List Nat → List Keypoint
  | 0, _ => []
  | n + 1, b => parseKeypoint (b.take 28) :: parseKeypoints n (b.drop 28)

/-- `read_vector_from_buffer<float>`: `n` 32-bit patterns from a block. -/
def parseDescriptors : Nat → List Nat → List Nat
  | 0, _ => []
  | n + 1, b => fromLE (b.take 4) :: parseDescriptors n (b.drop 4)

/-- `Serializer::deserialize_image`, control flow and checks verbatim:
header-size check, magic check, kind check, exact-size check, filename
bounds check, then the residual-size check (`size_t` arithmetic modelled
with explicit `% 2^64`). -/
def deserialize_image (d : List Nat) : Except String ImageData :=
  if d.length < 64 then .error "Data too small to contain header"
  else
    let magic := fromLE (readBytes d 0 4)
    let kind := fromLE (readBytes d 4 4)
    let payload_size := fromLE (readBytes d 8 8)
    let timestamp := fromLE (readBytes d 16 8)
    let width := fromLE (readBytes d 24 4)
    let height := fromLE (readBytes d 28 4)
    let channels := fromLE (readBytes d 32 4)
    let filename_length := fromLE (readBytes d 36 4)
    if magic ≠ MESSAGE_MAGIC then .error "Invalid magic number in header"
    else if kind ≠ 1 then .error "Expected IMAGE message type"
    else if d.length ≠ (64 + payload_size) % 18446744073709551616 then
      .error "Data size mismatch"
    else if 64 + filename_length > d.length then .error "Invalid filename length"
    else
      let image_data_size :=
        (payload_size + 18446744073709551616 - filename_length) % 18446744073709551616
      if (64 + filename_length + image_data_size) % 18446744073709551616 ≠ d.length then
        .error "Invalid image data size"
      else
        .ok { filename := readBytes d 64 filename_length
              width := width, height := height, channels := channels
              timestamp := timestamp
              data := d.drop (64 + filename_length) }

/-- `image_data_size` in `deserialize_image_with_features`: the
`uint32_t` product `width * height * channels` of the header fields (not
the size declared by `payload_size`). -/
def imageRegionOf (d : List Nat) : Nat :=
  fromLE (readBytes d 24 4) * fromLE (readBytes d 28 4) * fromLE (readBytes d 32 4) % 4294967296

/-- The offset (C++ local `offset` after the image data is read) at
which the keypoint count sits. -/
def keypointCountOff (d : List Nat) : Nat :=
  64 + fromLE (readBytes d 36 4) + imageRegionOf d

/-- The declared keypoint count of an enriched wire message. -/
def keypointCountOf (d : List Nat) : Nat :=
  fromLE (readBytes d (keypointCountOff d) 4)

/-- The offset at which the descriptor count sits. -/
def descriptorCountOff (d : List Nat) : Nat :=
  keypointCountOff d + 4 + 28 * keypointCountOf d

/-- The declared descriptor count of an enriched wire message. -/
def descriptorCountOf (d : List Nat) : Nat :=
  fromLE (readBytes d (descriptorCountOff d) 4)

/-- `Serializer::deserialize_image_with_features`, control flow and
checks verbatim (the C++ locals `filename_length`, `image_data_size`,
`offset`, `keypoint_count`, `descriptor_count` appear as the named
functions of `d` above).  Note: there is no exact-size (`payload_size`)
check, and the image-data size is `width * height * channels` (a
`uint32_t` product, hence `% 2^32`), not the size `payload_size`
declares — that residual is computed in C++ (`remaining_after_filename`)
but never used. -/
def deserialize_image_with_features (d : List Nat) : Except String ImageWithFeatures :=
  if d.length < 64 then .error "Data too small to contain header"
  else if fromLE (readBytes d 0 4) ≠ MESSAGE_MAGIC then .error "Invalid magic number in header"
  else if fromLE (readBytes d 4 4) ≠ 2 then .error "Expected IMAGE_WITH_FEATURES message type"
  else if 64 + fromLE (readBytes d 36 4) > d.length then .error "Invalid filename length"
  else if 64 + fromLE (readBytes d 36 4) + imageRegionOf d > d.length then
    .error "Invalid image data size"
  else if keypointCountOff d + 4 > d.length then
    .error "Buffer underflow: not enough data to read"
  else if keypointCountOff d + 4 + 28 * keypointCountOf d > d.length then
    .error "Buffer underflow: not enough data for vector"
  else if descriptorCountOff d + 4 > d.length then
    .error "Buffer underflow: not enough data to read"
  else if descriptorCountOff d + 4 + 4 * descriptorCountOf d > d.length then
    .error "Buffer underflow: not enough data for vector"
  else
    .ok { image :=
            { filename := readBytes d 64 (fromLE (readBytes d 36 4))
              width := fromLE (readBytes d 24 4)
              height := fromLE (readBytes d 28 4)
              channels := fromLE (readBytes d 32 4)
              timestamp := fromLE (readBytes d 16 8)
              data := readBytes d (64 + fromLE (readBytes d 36 4)) (imageRegionOf d) }
          keypoints :=
            parseKeypoints (keypointCountOf d)
              (readBytes d (keypointCountOff d + 4) (28 * keypointCountOf d))
          descriptors :=
            parseDescriptors (descriptorCountOf d)
              (readBytes d (descriptorCountOff d + 4) (4 * descriptorCountOf d)) }

/-! ## Basic facts about the byte primitives -/

theorem fromLE_lt_pow (l : List Nat) : fromLE l < 256 ^ l.length := by
  induction l with
  | nil => simp [fromLE]
  | cons b t ih =>
    have hb : b % 256 < 256 := Nat.mod_lt _ (by norm_num)
    simp only [fromLE, List.foldr] at ih ⊢
    rw [List.length_cons, pow_succ]
    omega

theorem readBytes_length_le (d : List Nat) (off n : Nat) :
    (readBytes d off n).length ≤ n := by
  simp [readBytes]

theorem fromLE_readBytes_lt (d : List Nat) (off n : Nat) :
    fromLE (readBytes d off n) < 256 ^ n :=
  lt_of_lt_of_le (fromLE_lt_pow _)
    (Nat.pow_le_pow_right (by norm_num) (readBytes_length_le d off n))

/-! ## Structural rejection of Frame decoding (spec section 4.1) -/

/-- The structural violations that, per the spec, are exactly the inputs
a `Frame` decode rejects: fewer than 64 bytes, magic mismatch, wrong
kind tag, declared `payload_size` different from the total length minus
64, or an `id`/payload slice that would run past the buffer end. -/
def specFrameViolation (d : List Nat) : Prop :=
  d.length < 64 ∨
  fromLE (readBytes d 0 4) ≠ MESSAGE_MAGIC ∨
  fromLE (readBytes d 4 4) ≠ 1 ∨
  fromLE (readBytes d 8 8) ≠ d.length - 64 ∨
  64 + fromLE (readBytes d 36 4) > d.length ∨
  64 + fromLE (readBytes d 8 8) > d.length

/-- C3: on any buffer a `size_t`-sized process can hold, `Frame`
decoding succeeds exactly when no structural violation is present;
semantically odd but well-formed values (for example `width = 0`) are
never rejected, since no check inspects them. -/
theorem deserialize_image_ok_iff (d : List Nat)
    (h : d.length < 18446744073709551616) :
    (deserialize_image d).isOk = true ↔ ¬ specFrameViolation d := by
  have hps : fromLE (readBytes d 8 8) < 18446744073709551616 := by
    have := fromLE_readBytes_lt d 8 8
    norm_num at this
    exact this
  have hfl : fromLE (readBytes d 36 4) < 4294967296 := by
    have := fromLE_readBytes_lt d 36 4
    norm_num at this
    exact this
  simp only [deserialize_image, specFrameViolation]
  split_ifs with h1 h2 h3 h4 h5 h6 <;> simp [Except.isOk, Except.toBool] <;> omega

/-- A decodable `Frame` wire message: the encoding of an empty image. -/
def sampleFrameBytes : List Nat :=
  serialize_image { filename := [], width := 0, height := 0, channels := 0, timestamp := 0, data := [] }

/-- Witness for `deserialize_image_ok_iff` at a concrete buffer. -/
theorem deserialize_image_ok_iff_witness :
    sampleFrameBytes.length < 18446744073709551616 ∧
    ((deserialize_image sampleFrameBytes).isOk = true ↔ ¬ specFrameViolation sampleFrameBytes) :=
  ⟨by decide, deserialize_image_ok_iff sampleFrameBytes (by decide)⟩

/-! ## Structural rejection of EnrichedFrame decoding -/

/-- A 72-byte message whose header declares `payload_size = 999` even
though only 8 payload bytes follow the 64-byte header. -/
def badPayloadSizeBytes : List Nat :=
  headerLE MESSAGE_MAGIC 2 999 0 0 0 0 0 ++ u32LE 0 ++ u32LE 0

/-- C2 counterexample: the enriched decoder accepts a message whose
declared `payload_size` (999) differs from the total length minus 64
(8) — it never cross-checks `payload_size` at all. -/
theorem enriched_decode_ignores_payload_size :
    (deserialize_image_with_features badPayloadSizeBytes).isOk = true ∧
    fromLE (readBytes badPayloadSizeBytes 8 8) = 999 ∧
    badPayloadSizeBytes.length - 64 = 8 := by decide

/-- The checks the enriched decoder actually performs: header present,
magic, enriched kind tag, filename slice in bounds, the
`width*height*channels` image region in bounds, and each declared
keypoint/descriptor count implying no more bytes than remain.  The
declared `payload_size` is not consulted. -/
def specEnrichedViolation (d : List Nat) : Prop :=
  d.length < 64 ∨
  fromLE (readBytes d 0 4) ≠ MESSAGE_MAGIC ∨
  fromLE (readBytes d 4 4) ≠ 2 ∨
  64 + fromLE (readBytes d 36 4) > d.length ∨
  64 + fromLE (readBytes d 36 4) + imageRegionOf d > d.length ∨
  keypointCountOff d + 4 > d.length ∨
  keypointCountOff d + 4 + 28 * keypointCountOf d > d.length ∨
  descriptorCountOff d + 4 > d.length ∨
  descriptorCountOff d + 4 + 4 * descriptorCountOf d > d.length

/-- C2 amended: enriched decoding fails exactly on a header/bounds
violation from `specEnrichedViolation`; the `payload_size` equation is
not among the checks. -/
theorem deserialize_image_with_features_ok_iff (d : List Nat) :
    (deserialize_image_with_features d).isOk = true ↔ ¬ specEnrichedViolation d := by
  simp only [deserialize_image_with_features, specEnrichedViolation]
  split_ifs with h1 h2 h3 h4 h5 h6 h7 h8 h9 <;>
    simp [Except.isOk, Except.toBool] <;> omega

/-! ## The enriched round trip breaks (decoder reads w*h*c bytes) -/

/-- An `ImageWithFeatures` whose payload is empty while its dimensions
are 1x1x1 — exactly the shape every real pipeline message has (payload
size unrelated to `width*height*channels`). -/
def featureRoundTripFailInput : ImageWithFeatures :=
  { image := { filename := [], width := 1, height := 1, channels := 1, timestamp := 0, data := [] }
    keypoints := [], descriptors := [] }

/-- C1: decoding the encoding of `featureRoundTripFailInput` does not
give the value back; it throws, because the decoder sizes the image
region as `width*height*channels` while the encoder wrote
`data.size()` bytes (its payload-derived size is computed into
`remaining_after_filename` and then never used). -/
theorem enriched_roundtrip_fails :
    deserialize_image_with_features (serialize_image_with_features featureRoundTripFailInput) =
      .error "Buffer underflow: not enough data to read" ∧
    deserialize_image_with_features (serialize_image_with_features featureRoundTripFailInput) ≠
      .ok featureRoundTripFailInput := by decide

/-! ## Totality and bounds-checking of both decoders -/

/-- C9: each decoder is total — it yields either a value or a
`SerializationError` string — and a successful decode certifies that
every region it sliced (filename, image data, keypoint block,
descriptor block, and both count fields) lay inside the buffer. -/
theorem deserialize_total_and_bounded (d : List Nat) :
    ((∃ v, deserialize_image d = .ok v) ∨ (∃ e, deserialize_image d = .error e)) ∧
    ((∃ v, deserialize_image_with_features d = .ok v) ∨
      (∃ e, deserialize_image_with_features d = .error e)) ∧
    ((deserialize_image d).isOk = true →
      64 ≤ d.length ∧ 64 + fromLE (readBytes d 36 4) ≤ d.length ∧
      d.length = (64 + fromLE (readBytes d 8 8)) % 18446744073709551616) ∧
    ((deserialize_image_with_features d).isOk = true →
      64 ≤ d.length ∧
      64 + fromLE (readBytes d 36 4) ≤ d.length ∧
      keypointCountOff d ≤ d.length ∧
      keypointCountOff d + 4 ≤ d.length ∧
      keypointCountOff d + 4 + 28 * keypointCountOf d ≤ d.length ∧
      descriptorCountOff d + 4 ≤ d.length ∧
      descriptorCountOff d + 4 + 4 * descriptorCountOf d ≤ d.length) := by
  refine ⟨?_, ?_, ?_, ?_⟩
  · cases h : deserialize_image d with
    | ok v => exact .inl ⟨v, rfl⟩
    | error e => exact .inr ⟨e, rfl⟩
  · cases h : deserialize_image_with_features d with
    | ok v => exact .inl ⟨v, rfl⟩
    | error e => exact .inr ⟨e, rfl⟩
  · simp only [deserialize_image]
    split_ifs with h1 h2 h3 h4 h5 h6 <;> simp [Except.isOk, Except.toBool] <;> omega
  · simp only [deserialize_image_with_features]
    split_ifs with h1 h2 h3 h4 h5 h6 h7 h8 h9 <;>
      simp [Except.isOk, Except.toBool] <;> omega

/-- A decodable enriched wire message (zero dimensions, no features). -/
def sampleEnrichedBytes : List Nat :=
  serialize_image_with_features
    { image := { filename := [], width := 0, height := 0, channels := 0, timestamp := 0, data := [] }
      keypoints := [], descriptors := [] }

/-- Witness for `deserialize_total_and_bounded`: both success
implications discharged at concrete, successfully decoding buffers. -/
theorem deserialize_total_and_bounded_witness :
    (64 ≤ sampleFrameBytes.length ∧
      64 + fromLE (readBytes sampleFrameBytes 36 4) ≤ sampleFrameBytes.length ∧
      sampleFrameBytes.length =
        (64 + fromLE (readBytes sampleFrameBytes 8 8)) % 18446744073709551616) ∧
    (64 ≤ sampleEnrichedBytes.length ∧
      64 + fromLE (readBytes sampleEnrichedBytes 36 4) ≤ sampleEnrichedBytes.length ∧
      keypointCountOff sampleEnrichedBytes ≤ sampleEnrichedBytes.length ∧
      keypointCountOff sampleEnrichedBytes + 4 ≤ sampleEnrichedBytes.length ∧
      keypointCountOff sampleEnrichedBytes + 4 + 28 * keypointCountOf sampleEnrichedBytes ≤
        sampleEnrichedBytes.length ∧
      descriptorCountOff sampleEnrichedBytes + 4 ≤ sampleEnrichedBytes.length ∧
      descriptorCountOff sampleEnrichedBytes + 4 + 4 * descriptorCountOf sampleEnrichedBytes ≤
        sampleEnrichedBytes.length) :=
  ⟨(deserialize_total_and_bounded sampleFrameBytes).2.2.1 (by decide),
   (deserialize_total_and_bounded sampleEnrichedBytes).2.2.2 (by decide)⟩

/-! ## Wire layout of the encoders (spec sections 3 and 4.1) -/

theorem headerLE_length (m t p ts w h c f : Nat) :
    (headerLE m t p ts w h c f).length = 64 := rfl

theorem take_64_header (m t p ts w h c f : Nat) (r : List Nat) :
    ((headerLE m t p ts w h c f ++ r).take 64) = headerLE m t p ts w h c f := rfl

theorem drop_64_header (m t p ts w h c f : Nat) (r : List Nat) :
    ((headerLE m t p ts w h c f ++ r).drop 64) = r := rfl

theorem readBytes_header_magic (m t p ts w h c f : Nat) (r : List Nat) :
    readBytes (headerLE m t p ts w h c f ++ r) 0 4 = u32LE m := rfl

theorem readBytes_header_kind (m t p ts w h c f : Nat) (r : List Nat) :
    readBytes (headerLE m t p ts w h c f ++ r) 4 4 = u32LE t := rfl

theorem readBytes_header_payload (m t p ts w h c f : Nat) (r : List Nat) :
    readBytes (headerLE m t p ts w h c f ++ r) 8 8 = u64LE p := rfl

theorem readBytes_header_timestamp (m t p ts w h c f : Nat) (r : List Nat) :
    readBytes (headerLE m t p ts w h c f ++ r) 16 8 = u64LE ts := rfl

theorem readBytes_header_width (m t p ts w h c f : Nat) (r : List Nat) :
    readBytes (headerLE m t p ts w h c f ++ r) 24 4 = u32LE w := rfl

theorem readBytes_header_height (m t p ts w h c f : Nat) (r : List Nat) :
    readBytes (headerLE m t p ts w h c f ++ r) 28 4 = u32LE h := rfl

theorem readBytes_header_channels (m t p ts w h c f : Nat) (r : List Nat) :
    readBytes (headerLE m t p ts w h c f ++ r) 32 4 = u32LE c := rfl

theorem readBytes_header_idlen (m t p ts w h c f : Nat) (r : List Nat) :
    readBytes (headerLE m t p ts w h c f ++ r) 36 4 = u32LE f := rfl

theorem readBytes_header_reserved (m t p ts w h c f : Nat) (r : List Nat) :
    readBytes (headerLE m t p ts w h c f ++ r) 40 24 = List.replicate 24 0 := rfl

/-- `serialize_image` unfolded to header-plus-rest shape. -/
theorem serialize_image_shape (img : ImageData) :
    serialize_image img =
      headerLE MESSAGE_MAGIC 1 (img.filename.length % 4294967296 + img.data.length)
        img.timestamp img.width img.height img.channels img.filename.length ++
      (img.filename ++ img.data) := by
  unfold serialize_image
  rw [List.append_assoc]

/-- `serialize_image_with_features` unfolded to header-plus-rest shape. -/
theorem serialize_image_with_features_shape (x : ImageWithFeatures) :
    serialize_image_with_features x =
      headerLE MESSAGE_MAGIC 2
        (x.image.filename.length + x.image.data.length +
          4 + 28 * x.keypoints.length + 4 + 4 * x.descriptors.length)
        x.image.timestamp x.image.width x.image.height x.image.channels
        x.image.filename.length ++
      (x.image.filename ++ (x.image.data ++
        (u32LE x.keypoints.length ++ ((x.keypoints.flatMap keypointLE) ++
          (u32LE x.descriptors.length ++ (x.descriptors.flatMap u32LE)))))) := by
  unfold serialize_image_with_features
  simp only [List.append_assoc]

theorem fromLE_u32LE (n : Nat) : fromLE (u32LE n) = n % 4294967296 := by
  simp [fromLE, u32LE]
  omega

theorem fromLE_u64LE (n : Nat) : fromLE (u64LE n) = n % 18446744073709551616 := by
  simp [fromLE, u64LE, u32LE]
  omega

/-- C7: the `Frame` encoder writes the 64-byte header, then the id
bytes, then the payload bytes, in that order; the header's
`payload_size` field holds `len(id) + len(payload)`; and encoding is
deterministic. -/
theorem serialize_image_layout (img : ImageData)
    (h1 : img.filename.length < 4294967296)
    (h2 : img.filename.length + img.data.length < 18446744073709551616) :
    serialize_image img =
      (serialize_image img).take 64 ++ img.filename ++ img.data ∧
    ((serialize_image img).take 64).length = 64 ∧
    fromLE (readBytes (serialize_image img) 8 8) =
      img.filename.length + img.data.length ∧
    ∀ y : ImageData, img = y → serialize_image img = serialize_image y := by
  refine ⟨?_, ?_, ?_, fun y hy => by rw [hy]⟩
  · simp only [serialize_image_shape, take_64_header, List.append_assoc]
  · rw [serialize_image_shape, take_64_header, headerLE_length]
  · rw [serialize_image_shape, readBytes_header_payload, fromLE_u64LE]
    omega

/-- A small concrete frame used to instantiate layout facts. -/
def sampleFrame : ImageData :=
  { filename := [104], width := 2, height := 3, channels := 1, timestamp := 5, data := [9, 8] }

/-- Witness for `serialize_image_layout` at a concrete frame. -/
theorem serialize_image_layout_witness :
    (serialize_image sampleFrame =
      (serialize_image sampleFrame).take 64 ++ sampleFrame.filename ++ sampleFrame.data) ∧
    fromLE (readBytes (serialize_image sampleFrame) 8 8) = 3 :=
  ⟨(serialize_image_layout sampleFrame (by decide) (by decide)).1,
   (serialize_image_layout sampleFrame (by decide) (by decide)).2.2.1⟩

/-- C8: every encoded message of either kind carries an exactly 64-byte
header, independent of payload contents, with the fields at the fixed
offsets `magic@0(4) kind@4(4) payload_size@8(8) captured_at@16(8)
width@24(4) height@28(4) channels@32(4) id_length@36(4) reserved@40(24)`
and no padding. -/
theorem header_is_64_bytes_fixed_layout (img : ImageData) (x : ImageWithFeatures) :
    (((serialize_image img).take 64).length = 64 ∧
      readBytes (serialize_image img) 0 4 = u32LE MESSAGE_MAGIC ∧
      readBytes (serialize_image img) 4 4 = u32LE 1 ∧
      readBytes (serialize_image img) 8 8 =
        u64LE (img.filename.length % 4294967296 + img.data.length) ∧
      readBytes (serialize_image img) 16 8 = u64LE img.timestamp ∧
      readBytes (serialize_image img) 24 4 = u32LE img.width ∧
      readBytes (serialize_image img) 28 4 = u32LE img.height ∧
      readBytes (serialize_image img) 32 4 = u32LE img.channels ∧
      readBytes (serialize_image img) 36 4 = u32LE img.filename.length ∧
      readBytes (serialize_image img) 40 24 = List.replicate 24 0) ∧
    (((serialize_image_with_features x).take 64).length = 64 ∧
      readBytes (serialize_image_with_features x) 0 4 = u32LE MESSAGE_MAGIC ∧
      readBytes (serialize_image_with_features x) 4 4 = u32LE 2 ∧
      readBytes (serialize_image_with_features x) 8 8 =
        u64LE (x.image.filename.length + x.image.data.length +
          4 + 28 * x.keypoints.length + 4 + 4 * x.descriptors.length) ∧
      readBytes (serialize_image_with_features x) 16 8 = u64LE x.image.timestamp ∧
      readBytes (serialize_image_with_features x) 24 4 = u32LE x.image.width ∧
      readBytes (serialize_image_with_features x) 28 4 = u32LE x.image.height ∧
      readBytes (serialize_image_with_features x) 32 4 = u32LE x.image.channels ∧
      readBytes (serialize_image_with_features x) 36 4 = u32LE x.image.filename.length ∧
      readBytes (serialize_image_with_features x) 40 24 = List.replicate 24 0) := by
  rw [serialize_image_shape, serialize_image_with_features_shape]
  simp only [take_64_header, headerLE_length, readBytes_header_magic, readBytes_header_kind,
    readBytes_header_payload, readBytes_header_timestamp, readBytes_header_width,
    readBytes_header_height, readBytes_header_channels, readBytes_header_idlen,
    readBytes_header_reserved, and_self]

/-! ## Transport wrapper (`Subscriber::Impl::receive`, ipc_manager.cpp) -/

/-- Outcome of one underlying `zmq_msg_recv` call: a message, a timeout
(`EAGAIN`), or some other transport fault. -/
inductive ZmqRecv where
  | msg (bytes : List Nat)
  | again
  | fault (e : String)

/-- `Subscriber::Impl::receive`: a timeout (`EAGAIN`) yields the empty
byte vector, any other failure raises `IPCError`. -/
def Subscriber.receive : ZmqRecv → Except String (List Nat)
  | .msg b => .ok b
  | .again => .ok []
  | .fault e => .error ("Failed to receive message: " ++ e)

/-- `Subscriber::receive_image`: empty bytes (timeout) become the
default-constructed `ImageData`, otherwise the bytes are decoded. -/
def Subscriber.receive_image (r : ZmqRecv) : Except String ImageData :=
  match Subscriber.receive r with
  | .error e => .error e
  | .ok b => if b.isEmpty then .ok ⟨[], 0, 0, 0, 0, []⟩ else deserialize_image b

/-- `Subscriber::receive_image_with_features`, likewise. -/
def Subscriber.receive_image_with_features (r : ZmqRecv) : Except String ImageWithFeatures :=
  match Subscriber.receive r with
  | .error e => .error e
  | .ok b =>
    if b.isEmpty then .ok ⟨⟨[], 0, 0, 0, 0, []⟩, [], []⟩
    else deserialize_image_with_features b

/-- `voyis::Subscriber::receive` (src/common/ipc.cpp): returns `false`
with no data on timeout/interrupt or when not connected; never throws. -/
def voyisSubscriberReceive (connected : Bool) (r : ZmqRecv) : Bool × List Nat :=
  if ¬ connected then (false, [])
  else
    match r with
    | .msg b => (true, b)
    | .again => (false, [])
    | .fault _ => (false, [])

/-- C6: a receive timeout is an expected outcome, not an error — both
wrappers return their empty no-message value and raise nothing. -/
theorem receive_timeout_is_empty_not_error :
    Subscriber.receive .again = .ok [] ∧
    Subscriber.receive_image .again = .ok ⟨[], 0, 0, 0, 0, []⟩ ∧
    Subscriber.receive_image_with_features .again = .ok ⟨⟨[], 0, 0, 0, 0, []⟩, [], []⟩ ∧
    voyisSubscriberReceive true .again = (false, []) :=
  ⟨rfl, rfl, rfl, rfl⟩

/-! ## Persistence gateway (`DataLogger`, data_logger.hpp) -/

/-- Running statistics of the Sink stage (`images_logged_`,
`keypoints_logged_`). -/
structure Stats where
  images_logged : Nat
  keypoints_logged : Nat
deriving DecidableEq

/-- A row of the `images` table. -/
structure ImageRow where
  row_id : Nat
  filename : List Nat
  timestamp : Nat
  width : Nat
  height : Nat
  channels : Nat
  image_data : List Nat
  data_size : Nat
deriving DecidableEq

/-- A row of the `keypoints` table (references its parent image row). -/
structure KeypointRow where
  image_id : Nat
  x : Nat
  y : Nat
  size : Nat
  angle : Nat
  response : Nat
  octave : Nat
  class_id : Nat
deriving DecidableEq

/-- A row of the `descriptors` table (one blob per image). -/
structure DescriptorRow where
  image_id : Nat
  descriptor_data : List Nat
deriving DecidableEq

/-- Observable SQLite state: committed rows plus the `AUTOINCREMENT`
cursor that `sqlite3_last_insert_rowid` reflects. -/
structure DBState where
  next_id : Nat
  images : List ImageRow
  keypoints : List KeypointRow
  descriptors : List DescriptorRow
deriving DecidableEq

/-- The individual SQL statements `store_image_with_features` issues
inside its transaction, each of which sqlite may fail. -/
inductive DbOp where
  | insert_image
  | insert_keypoint (i : Nat)
  | insert_descriptor
  | commit_tx
deriving DecidableEq

/-- The parent `images` row derived from one `ImageWithFeatures`. -/
def imageRowOf (id : Nat) (x : ImageWithFeatures) : ImageRow :=
  { row_id := id, filename := x.image.filename, timestamp := x.image.timestamp
    width := x.image.width, height := x.image.height, channels := x.image.channels
    image_data := x.image.data, data_size := x.image.data.length }

/-- The child `keypoints` row for one keypoint. -/
def keypointRowOf (id : Nat) (k : Keypoint) : KeypointRow :=
  { image_id := id, x := k.x, y := k.y, size := k.size, angle := k.angle
    response := k.response, octave := k.octave, class_id := k.class_id }

/-- The child `descriptors` rows: one blob row, or none when the
descriptor vector is empty (the C++ skips the insert then). -/
def descriptorRowsOf (id : Nat) (x : ImageWithFeatures) : List DescriptorRow :=
  if x.descriptors = [] then [] else [{ image_id := id, descriptor_data := x.descriptors }]

/-- `DataLogger::store_image_with_features`: begin a transaction, insert
the parent row, one row per keypoint, the descriptor blob, then commit;
any failure rolls the transaction back (sqlite restores the pre-call
state) and rethrows, and the two counters are bumped only after the
commit.  `ora` says which SQL steps succeed. -/
def store_image_with_features (ora : DbOp → Bool) (db : DBState) (st : Stats)
    (x : ImageWithFeatures) : DBState × Stats × Except String Unit :=
  if ¬ ora .insert_image then (db, st, .error "Failed to insert image")
  else if (List.range x.keypoints.length).any (fun i => ! ora (.insert_keypoint i)) then
    (db, st, .error "Failed to insert keypoint")
  else if x.descriptors ≠ [] ∧ ¬ ora .insert_descriptor then
    (db, st, .error "Failed to insert descriptors")
  else if ¬ ora .commit_tx then (db, st, .error "SQL execution failed: commit")
  else
    ({ next_id := db.next_id + 1
       images := db.images ++ [imageRowOf db.next_id x]
       keypoints := db.keypoints ++ x.keypoints.map (keypointRowOf db.next_id)
       descriptors := db.descriptors ++ descriptorRowsOf db.next_id x },
     { images_logged := st.images_logged + 1
       keypoints_logged := st.keypoints_logged + x.keypoints.length },
     .ok ())

/-! ## Stage loops (`FeatureExtractor::run`, `DataLogger::run`) -/

/-- Per-iteration state of the Enricher stage (`running_`,
`images_processed_`, `total_features_extracted_`). -/
structure ExtractorState where
  running : Bool
  images_processed : Nat
  total_features_extracted : Nat
deriving DecidableEq

/-- Outcome of `process_image` (the external OpenCV collaborator):
either it throws (image decode failure, extraction failure) or it
returns an enriched value. -/
inductive ProcResult where
  | fail (e : String)
  | ok (r : ImageWithFeatures)

/-- One iteration of `FeatureExtractor::run`'s `while (running_)` body:
everything inside the `try` block; a caught exception (decode error or
transform failure) just logs and continues. -/
def FeatureExtractor.run_iteration (recv : ZmqRecv) (proc : ImageData → ProcResult)
    (s : ExtractorState) : ExtractorState :=
  match Subscriber.receive_image recv with
  | .error _ => s
  | .ok img =>
    if img.data.isEmpty then s
    else
      match proc img with
      | .fail _ => s
      | .ok r =>
        { s with images_processed := s.images_processed + 1
                 total_features_extracted := s.total_features_extracted + r.keypoints.length }

/-- `FeatureExtractor::stop`. -/
def FeatureExtractor.stop (s : ExtractorState) : ExtractorState :=
  { s with running := false }

/-- Per-iteration state of the Sink stage. -/
structure LoggerState where
  running : Bool
  db : DBState
  stats : Stats
deriving DecidableEq

/-- One iteration of `DataLogger::run`'s loop body: receive, skip on
timeout, store; a thrown `DatabaseError`/`SerializationError` is caught,
logged and the loop continues (with the DB rolled back by `store`). -/
def DataLogger.run_iteration (ora : DbOp → Bool) (recv : ZmqRecv) (s : LoggerState) :
    LoggerState :=
  match Subscriber.receive_image_with_features recv with
  | .error _ => s
  | .ok data =>
    if data.image.data.isEmpty then s
    else
      match store_image_with_features ora s.db s.stats data with
      | (db2, st2, _) => { running := s.running, db := db2, stats := st2 }

/-- `DataLogger::stop`. -/
def DataLogger.stop (s : LoggerState) : LoggerState :=
  { s with running := false }

/-- C5: no received message — malformed bytes, a failing transform, a
failing store — ever changes the `running_` flag of either stage; an
iteration preserves it exactly, and only the cooperative `stop` call
clears it. -/
theorem stage_survives_bad_messages (recv : ZmqRecv) (proc : ImageData → ProcResult)
    (s : ExtractorState) (ora : DbOp → Bool) (recv2 : ZmqRecv) (t : LoggerState) :
    (FeatureExtractor.run_iteration recv proc s).running = s.running ∧
    (DataLogger.run_iteration ora recv2 t).running = t.running ∧
    (FeatureExtractor.stop s).running = false ∧
    (DataLogger.stop t).running = false := by
  refine ⟨?_, ?_, rfl, rfl⟩
  · unfold FeatureExtractor.run_iteration
    split
    · rfl
    · split
      · rfl
      · split <;> rfl
  · unfold DataLogger.run_iteration
    split
    · rfl
    · split
      · rfl
      · split
        rfl

/-- C4: `store` is atomic.  On any failed step the observable database
is exactly what it was before the call (same rows, same counts); on
success exactly the parent row, the keypoint rows and the descriptor
blob are appended, every child row referencing the parent's generated
id; and the Sink's loop keeps running either way. -/
theorem store_image_with_features_atomic (ora : DbOp → Bool) (db : DBState) (st : Stats)
    (x : ImageWithFeatures) (recv : ZmqRecv) (s : LoggerState) :
    (∀ e, (store_image_with_features ora db st x).2.2 = .error e →
      (store_image_with_features ora db st x).1 = db ∧
      (store_image_with_features ora db st x).1.images.length = db.images.length ∧
      (store_image_with_features ora db st x).1.keypoints.length = db.keypoints.length ∧
      (store_image_with_features ora db st x).1.descriptors.length = db.descriptors.length) ∧
    ((store_image_with_features ora db st x).2.2 = .ok () →
      (store_image_with_features ora db st x).1 =
        { next_id := db.next_id + 1
          images := db.images ++ [imageRowOf db.next_id x]
          keypoints := db.keypoints ++ x.keypoints.map (keypointRowOf db.next_id)
          descriptors := db.descriptors ++ descriptorRowsOf db.next_id x }) ∧
    (∀ r ∈ x.keypoints.map (keypointRowOf db.next_id), r.image_id = db.next_id) ∧
    (∀ r ∈ descriptorRowsOf db.next_id x, r.image_id = db.next_id) ∧
    (DataLogger.run_iteration ora recv s).running = s.running := by
  refine ⟨?_, ?_, ?_, ?_, ?_⟩
  · intro e he
    unfold store_image_with_features at he ⊢
    split_ifs at he ⊢ <;> simp_all
  · intro h
    unfold store_image_with_features at h ⊢
    split_ifs at h ⊢ <;> simp_all
  · intro r hr
    rcases List.mem_map.mp hr with ⟨k, _, rfl⟩
    rfl
  · intro r hr
    by_cases hd : x.descriptors = [] <;> simp [descriptorRowsOf, hd] at hr
    rw [hr]
  · unfold DataLogger.run_iteration
    split
    · rfl
    · split
      · rfl
      · split
        rfl

/-- C10: the Sink's two statistics counters change only on a committed
store — then by exactly one image and the message's keypoint count,
matching the rows that were appended — and a failed store leaves them
untouched; in particular they never decrease. -/
theorem counters_track_commits (ora : DbOp → Bool) (db : DBState) (st : Stats)
    (x : ImageWithFeatures) :
    ((store_image_with_features ora db st x).2.2 = .ok () →
      (store_image_with_features ora db st x).2.1.images_logged = st.images_logged + 1 ∧
      (store_image_with_features ora db st x).2.1.keypoints_logged =
        st.keypoints_logged + x.keypoints.length ∧
      (store_image_with_features ora db st x).1.images.length = db.images.length + 1 ∧
      (store_image_with_features ora db st x).1.keypoints.length =
        db.keypoints.length + x.keypoints.length) ∧
    (∀ e, (store_image_with_features ora db st x).2.2 = .error e →
      (store_image_with_features ora db st x).2.1 = st) ∧
    st.images_logged ≤ (store_image_with_features ora db st x).2.1.images_logged ∧
    st.keypoints_logged ≤ (store_image_with_features ora db st x).2.1.keypoints_logged := by
  refine ⟨?_, ?_, ?_, ?_⟩
  · intro h
    unfold store_image_with_features at h ⊢
    split_ifs at h ⊢ <;> simp_all
  · intro e he
    unfold store_image_with_features at he ⊢
    split_ifs at he ⊢ <;> simp_all
  · unfold store_image_with_features
    split_ifs <;> simp
  · unfold store_image_with_features
    split_ifs <;> simp

/-- A database state, stats and message used to instantiate the store
theorems. -/
def dbBefore : DBState := { next_id := 1, images := [], keypoints := [], descriptors := [] }

/-- Zeroed counters. -/
def statsBefore : Stats := { images_logged := 0, keypoints_logged := 0 }

/-- A message with two keypoints and a descriptor blob. -/
def storedMessage : ImageWithFeatures :=
  { image := { filename := [97], width := 1, height := 2, channels := 1, timestamp := 7, data := [5, 5] }
    keypoints := [⟨1, 2, 3, 4, 5, 6, 7⟩, ⟨8, 9, 10, 11, 12, 13, 14⟩]
    descriptors := [42, 43] }

/-- A step oracle that fails the second keypoint insert. -/
def failSecondKeypoint : DbOp → Bool
  | .insert_keypoint 1 => false
  | _ => true

/-- Witness for `store_image_with_features_atomic`: at a concrete store
that fails on its second keypoint insert, the database is unchanged. -/
theorem store_image_with_features_atomic_witness :
    (store_image_with_features failSecondKeypoint dbBefore statsBefore storedMessage).1 =
      dbBefore ∧
    (store_image_with_features failSecondKeypoint dbBefore statsBefore storedMessage).1.images.length =
      dbBefore.images.length ∧
    (store_image_with_features failSecondKeypoint dbBefore statsBefore storedMessage).1.keypoints.length =
      dbBefore.keypoints.length ∧
    (store_image_with_features failSecondKeypoint dbBefore statsBefore storedMessage).1.descriptors.length =
      dbBefore.descriptors.length :=
  (store_image_with_features_atomic failSecondKeypoint dbBefore statsBefore storedMessage
    .again { running := true, db := dbBefore, stats := statsBefore }).1
    "Failed to insert keypoint" (by decide)

/-- Witness for `counters_track_commits`: with every SQL step
succeeding, a concrete store bumps the counters by 1 and 2. -/
theorem counters_track_commits_witness :
    (store_image_with_features (fun _ => true) dbBefore statsBefore storedMessage).2.1.images_logged =
      statsBefore.images_logged + 1 ∧
    (store_image_with_features (fun _ => true) dbBefore statsBefore storedMessage).2.1.keypoints_logged =
      statsBefore.keypoints_logged + storedMessage.keypoints.length ∧
    (store_image_with_features (fun _ => true) dbBefore statsBefore storedMessage).1.images.length =
      dbBefore.images.length + 1 ∧
    (store_image_with_features (fun _ => true) dbBefore statsBefore storedMessage).1.keypoints.length =
      dbBefore.keypoints.length + storedMessage.keypoints.length :=
  (counters_track_commits (fun _ => true) dbBefore statsBefore storedMessage).1 (by decide)

/-! ## Round trips.

The `Frame` codec round-trips for every value in the C++ field domains;
the enriched codec round-trips only when the payload length happens to
equal `width * height * channels`, which is exactly the boundary of the
defect `enriched_roundtrip_fails` exhibits. -/

theorem u32LE_length (n : Nat) : (u32LE n).length = 4 := rfl

theorem keypointLE_length (k : Keypoint) : (keypointLE k).length = 28 := rfl

theorem length_flatMap_keypointLE (l : List Keypoint) :
    (l.flatMap keypointLE).length = 28 * l.length := by
  induction l with
  | nil => rfl
  | cons k t ih =>
    simp only [List.flatMap_cons, List.length_append, keypointLE_length, List.length_cons, ih]
    omega

theorem length_flatMap_u32LE (l : List Nat) :
    (l.flatMap u32LE).length = 4 * l.length := by
  induction l with
  | nil => rfl
  | cons v t ih =>
    simp only [List.flatMap_cons, List.length_append, u32LE_length, List.length_cons, ih]
    omega

theorem take_4_u32LE (n : Nat) (r : List Nat) : (u32LE n ++ r).take 4 = u32LE n := rfl

theorem drop_4_u32LE (n : Nat) (r : List Nat) : (u32LE n ++ r).drop 4 = r := rfl

theorem take_28_keypointLE (k : Keypoint) (r : List Nat) :
    (keypointLE k ++ r).take 28 = keypointLE k := rfl

theorem drop_28_keypointLE (k : Keypoint) (r : List Nat) :
    (keypointLE k ++ r).drop 28 = r := rfl

/-- A keypoint whose seven 32-bit fields are in range survives the
`memcpy` to and from its 28 wire bytes. -/
theorem parseKeypoint_keypointLE (k : Keypoint)
    (hk : k.x < 4294967296 ∧ k.y < 4294967296 ∧ k.size < 4294967296 ∧
      k.angle < 4294967296 ∧ k.response < 4294967296 ∧ k.octave < 4294967296 ∧
      k.class_id < 4294967296) :
    parseKeypoint (keypointLE k) = k := by
  have e : parseKeypoint (keypointLE k) =
      ⟨fromLE (u32LE k.x), fromLE (u32LE k.y), fromLE (u32LE k.size), fromLE (u32LE k.angle),
       fromLE (u32LE k.response), fromLE (u32LE k.octave), fromLE (u32LE k.class_id)⟩ := rfl
  obtain ⟨h1, h2, h3, h4, h5, h6, h7⟩ := hk
  rw [e]
  simp only [fromLE_u32LE]
  rw [Nat.mod_eq_of_lt h1, Nat.mod_eq_of_lt h2, Nat.mod_eq_of_lt h3, Nat.mod_eq_of_lt h4,
    Nat.mod_eq_of_lt h5, Nat.mod_eq_of_lt h6, Nat.mod_eq_of_lt h7]

/-- A keypoint block round-trips. -/
theorem parseKeypoints_flatMap (l : List Keypoint)
    (h : ∀ k ∈ l, k.x < 4294967296 ∧ k.y < 4294967296 ∧ k.size < 4294967296 ∧
      k.angle < 4294967296 ∧ k.response < 4294967296 ∧ k.octave < 4294967296 ∧
      k.class_id < 4294967296) :
    parseKeypoints l.length (l.flatMap keypointLE) = l := by
  induction l with
  | nil => rfl
  | cons k t ih =>
    simp only [List.flatMap_cons, List.length_cons, parseKeypoints]
    rw [take_28_keypointLE, drop_28_keypointLE,
      parseKeypoint_keypointLE k (h k (by simp)),
      ih (fun k2 hk2 => h k2 (by simp [hk2]))]

/-- A descriptor block round-trips. -/
theorem parseDescriptors_flatMap (l : List Nat) (h : ∀ v ∈ l, v < 4294967296) :
    parseDescriptors l.length (l.flatMap u32LE) = l := by
  induction l with
  | nil => rfl
  | cons v t ih =>
    simp only [List.flatMap_cons, List.length_cons, parseDescriptors]
    rw [take_4_u32LE, drop_4_u32LE, fromLE_u32LE,
      Nat.mod_eq_of_lt (h v (by simp)),
      ih (fun v2 hv2 => h v2 (by simp [hv2]))]

/-- `Frame` round trip: decoding the encoding of any `ImageData` whose
fields are inside the `uint32_t`/`uint64_t` domains gives the value
back, field for field. -/
theorem deserialize_serialize_image (img : ImageData)
    (hf : img.filename.length < 4294967296)
    (hw : img.width < 4294967296) (hh : img.height < 4294967296)
    (hc : img.channels < 4294967296) (ht : img.timestamp < 18446744073709551616)
    (hs : 64 + img.filename.length + img.data.length < 18446744073709551616) :
    deserialize_image (serialize_image img) = .ok img := by
  have e1 : fromLE (readBytes (serialize_image img) 0 4) = MESSAGE_MAGIC := by
    rw [serialize_image_shape, readBytes_header_magic, fromLE_u32LE]
    decide
  have e2 : fromLE (readBytes (serialize_image img) 4 4) = 1 := by
    rw [serialize_image_shape, readBytes_header_kind, fromLE_u32LE]
  have e3 : fromLE (readBytes (serialize_image img) 8 8) =
      img.filename.length + img.data.length := by
    rw [serialize_image_shape, readBytes_header_payload, fromLE_u64LE]
    omega
  have e4 : fromLE (readBytes (serialize_image img) 16 8) = img.timestamp := by
    rw [serialize_image_shape, readBytes_header_timestamp, fromLE_u64LE]
    omega
  have e5 : fromLE (readBytes (serialize_image img) 24 4) = img.width := by
    rw [serialize_image_shape, readBytes_header_width, fromLE_u32LE]
    omega
  have e6 : fromLE (readBytes (serialize_image img) 28 4) = img.height := by
    rw [serialize_image_shape, readBytes_header_height, fromLE_u32LE]
    omega
  have e7 : fromLE (readBytes (serialize_image img) 32 4) = img.channels := by
    rw [serialize_image_shape, readBytes_header_channels, fromLE_u32LE]
    omega
  have e8 : fromLE (readBytes (serialize_image img) 36 4) = img.filename.length := by
    rw [serialize_image_shape, readBytes_header_idlen, fromLE_u32LE]
    omega
  have e9 : (serialize_image img).length = 64 + (img.filename.length + img.data.length) := by
    rw [serialize_image_shape]
    simp [headerLE_length]
  have e10 : readBytes (serialize_image img) 64 img.filename.length = img.filename := by
    rw [serialize_image_shape]
    simp only [readBytes, drop_64_header]
    exact List.take_left _ _
  have e11 : (serialize_image img).drop (64 + img.filename.length) = img.data := by
    rw [serialize_image_shape, ← List.drop_drop, drop_64_header, List.drop_left]
  simp only [deserialize_image, e1, e2, e3, e4, e5, e6, e7, e8, e9, e10, e11]
  split_ifs <;> first
    | rfl
    | omega

set_option maxHeartbeats 1000000 in
/-- Enriched round trip, on the boundary where the codec is coherent:
decoding the encoding of an `ImageWithFeatures` gives the value back
exactly when, in addition to the field domains, the payload length
equals the `uint32_t` product `width * height * channels` — the length
the decoder insists on reading. -/
theorem deserialize_serialize_image_with_features (x : ImageWithFeatures)
    (hf : x.image.filename.length < 4294967296)
    (hw : x.image.width < 4294967296) (hh : x.image.height < 4294967296)
    (hc : x.image.channels < 4294967296)
    (ht : x.image.timestamp < 18446744073709551616)
    (hkc : x.keypoints.length < 4294967296)
    (hdc : x.descriptors.length < 4294967296)
    (hkp : ∀ k ∈ x.keypoints, k.x < 4294967296 ∧ k.y < 4294967296 ∧ k.size < 4294967296 ∧
      k.angle < 4294967296 ∧ k.response < 4294967296 ∧ k.octave < 4294967296 ∧
      k.class_id < 4294967296)
    (hdv : ∀ v ∈ x.descriptors, v < 4294967296)
    (hdim : x.image.data.length =
      x.image.width * x.image.height * x.image.channels % 4294967296) :
    deserialize_image_with_features (serialize_image_with_features x) = .ok x := by
  have f1 : fromLE (readBytes (serialize_image_with_features x) 0 4) = MESSAGE_MAGIC := by
    rw [serialize_image_with_features_shape, readBytes_header_magic, fromLE_u32LE]
    decide
  have f2 : fromLE (readBytes (serialize_image_with_features x) 4 4) = 2 := by
    rw [serialize_image_with_features_shape, readBytes_header_kind, fromLE_u32LE]
  have f3 : fromLE (readBytes (serialize_image_with_features x) 16 8) = x.image.timestamp := by
    rw [serialize_image_with_features_shape, readBytes_header_timestamp, fromLE_u64LE]
    omega
  have f4 : fromLE (readBytes (serialize_image_with_features x) 24 4) = x.image.width := by
    rw [serialize_image_with_features_shape, readBytes_header_width, fromLE_u32LE]
    omega
  have f5 : fromLE (readBytes (serialize_image_with_features x) 28 4) = x.image.height := by
    rw [serialize_image_with_features_shape, readBytes_header_height, fromLE_u32LE]
    omega
  have f6 : fromLE (readBytes (serialize_image_with_features x) 32 4) = x.image.channels := by
    rw [serialize_image_with_features_shape, readBytes_header_channels, fromLE_u32LE]
    omega
  have f7 : fromLE (readBytes (serialize_image_with_features x) 36 4) =
      x.image.filename.length := by
    rw [serialize_image_with_features_shape, readBytes_header_idlen, fromLE_u32LE]
    omega
  have f8 : (serialize_image_with_features x).length =
      64 + x.image.filename.length + x.image.data.length +
        4 + 28 * x.keypoints.length + 4 + 4 * x.descriptors.length := by
    rw [serialize_image_with_features_shape]
    simp only [List.length_append, headerLE_length, length_flatMap_keypointLE,
      length_flatMap_u32LE, u32LE_length]
    omega
  have f9 : imageRegionOf (serialize_image_with_features x) = x.image.data.length := by
    simp only [imageRegionOf, f4, f5, f6]
    exact hdim.symm
  have gd1 : (serialize_image_with_features x).drop 64 =
      x.image.filename ++ (x.image.data ++
        (u32LE x.keypoints.length ++ ((x.keypoints.flatMap keypointLE) ++
          (u32LE x.descriptors.length ++ (x.descriptors.flatMap u32LE))))) := by
    rw [serialize_image_with_features_shape, drop_64_header]
  have gd2 : (serialize_image_with_features x).drop (64 + x.image.filename.length) =
      x.image.data ++
        (u32LE x.keypoints.length ++ ((x.keypoints.flatMap keypointLE) ++
          (u32LE x.descriptors.length ++ (x.descriptors.flatMap u32LE)))) := by
    rw [← List.drop_drop, gd1, List.drop_left]
  have gd3 : (serialize_image_with_features x).drop
        (64 + x.image.filename.length + x.image.data.length) =
      u32LE x.keypoints.length ++ ((x.keypoints.flatMap keypointLE) ++
        (u32LE x.descriptors.length ++ (x.descriptors.flatMap u32LE))) := by
    rw [← List.drop_drop, gd2, List.drop_left]
  have gd4 : (serialize_image_with_features x).drop
        (64 + x.image.filename.length + x.image.data.length + 4) =
      (x.keypoints.flatMap keypointLE) ++
        (u32LE x.descriptors.length ++ (x.descriptors.flatMap u32LE)) := by
    rw [← List.drop_drop, gd3, drop_4_u32LE]
  have gd5 : (serialize_image_with_features x).drop
        (64 + x.image.filename.length + x.image.data.length + 4 + 28 * x.keypoints.length) =
      u32LE x.descriptors.length ++ (x.descriptors.flatMap u32LE) := by
    rw [← List.drop_drop, gd4, List.drop_left' (length_flatMap_keypointLE _)]
  have gd6 : (serialize_image_with_features x).drop
        (64 + x.image.filename.length + x.image.data.length + 4 +
          28 * x.keypoints.length + 4) =
      x.descriptors.flatMap u32LE := by
    rw [← List.drop_drop, gd5, drop_4_u32LE]
  have f10 : readBytes (serialize_image_with_features x) 64 x.image.filename.length =
      x.image.filename := by
    simp only [readBytes, gd1]
    exact List.take_left _ _
  have f11 : readBytes (serialize_image_with_features x) (64 + x.image.filename.length)
      x.image.data.length = x.image.data := by
    simp only [readBytes, gd2]
    exact List.take_left _ _
  have f12 : fromLE (readBytes (serialize_image_with_features x)
      (64 + x.image.filename.length + x.image.data.length) 4) = x.keypoints.length := by
    simp only [readBytes, gd3, take_4_u32LE, fromLE_u32LE]
    omega
  have f13 : readBytes (serialize_image_with_features x)
      (64 + x.image.filename.length + x.image.data.length + 4) (28 * x.keypoints.length) =
      x.keypoints.flatMap keypointLE := by
    simp only [readBytes, gd4]
    exact List.take_left' (length_flatMap_keypointLE _)
  have f14 : fromLE (readBytes (serialize_image_with_features x)
      (64 + x.image.filename.length + x.image.data.length + 4 + 28 * x.keypoints.length) 4) =
      x.descriptors.length := by
    simp only [readBytes, gd5, take_4_u32LE, fromLE_u32LE]
    omega
  have f15 : readBytes (serialize_image_with_features x)
      (64 + x.image.filename.length + x.image.data.length + 4 +
        28 * x.keypoints.length + 4) (4 * x.descriptors.length) =
      x.descriptors.flatMap u32LE := by
    simp only [readBytes, gd6]
    exact List.take_of_length_le (le_of_eq (length_flatMap_u32LE _))
  have p1 : keypointCountOff (serialize_image_with_features x) =
      64 + x.image.filename.length + x.image.data.length := by
    simp only [keypointCountOff, f7, f9]
  have p2 : keypointCountOf (serialize_image_with_features x) = x.keypoints.length := by
    simp only [keypointCountOf, p1]
    exact f12
  have p3 : descriptorCountOff (serialize_image_with_features x) =
      64 + x.image.filename.length + x.image.data.length + 4 + 28 * x.keypoints.length := by
    simp only [descriptorCountOff, p1, p2]
  have p4 : descriptorCountOf (serialize_image_with_features x) = x.descriptors.length := by
    simp only [descriptorCountOf, p3]
    exact f14
  have pk : parseKeypoints x.keypoints.length (x.keypoints.flatMap keypointLE) =
      x.keypoints := parseKeypoints_flatMap _ hkp
  have pd : parseDescriptors x.descriptors.length (x.descriptors.flatMap u32LE) =
      x.descriptors := parseDescriptors_flatMap _ hdv
  simp only [deserialize_image_with_features, f1, f2, f3, f4, f5, f6, f7, f8, f9,
    p1, p2, p3, p4, f10, f11, f12, f13, f14, f15, pk, pd]
  split_ifs <;> first
    | rfl
    | omega

end dis
